import Mathlib

/-!
Verification of the audio/video synchronization controller in
`src/video/vie_sync_module.cc` (class `ViESyncModule`), shallowly embedded in
Lean 4.  External collaborators (`RtpReceiver`, `RtpRtcp`, `VoEVideoSync`,
`VideoCodingModule`) are modelled as data records whose fallible queries are
`Option` values; pointers are modelled by their identity (`Option Nat`, `none`
standing for NULL).  The parts of `StreamSynchronization`
(stream_synchronization.cc) that the controller calls are not part of the
excerpt and are modelled from the specification where needed; each such
definition says so in its doc comment.
-/

namespace ViESync

/-- One RTCP sender-report correlation sample: NTP wall-clock time
(seconds + fraction) paired with the RTP-domain timestamp reported with it. -/
structure RtcpMeasurement where
  ntp_secs : Nat
  ntp_frac : Nat
  rtp_timestamp : Nat
deriving DecidableEq, Repr

/-- `StreamSynchronization::Measurements`: the per-stream measurement record
mutated in place by `UpdateMeasurements` — latest received RTP timestamp,
latest local receive time, and the RTCP correlation list. -/
structure Measurements where
  latest_timestamp : Nat
  latest_receive_time_ms : Int
  rtcp : List RtcpMeasurement
deriving DecidableEq, Repr

/-- External `RtpReceiver` collaborator: `Timestamp()` and
`LastReceivedTimeMs()` write their out-parameter and return true only when the
receiver has data; modelled as `Option` fields. -/
structure RtpReceiverData where
  timestamp : Option Nat
  last_received_time_ms : Option Int
deriving DecidableEq, Repr

/-- External `RtpRtcp` collaborator: `RemoteNTP()` returns 0 on success and
fills (ntp_secs, ntp_frac, rtp_timestamp); modelled as an `Option` triple. -/
structure RtpRtcpData where
  remote_ntp : Option (Nat × Nat × Nat)
deriving DecidableEq, Repr

/-- Wall-clock ordering of correlation samples: strictly newer NTP time. -/
def ntpGt (a b : RtcpMeasurement) : Bool :=
  a.ntp_secs > b.ntp_secs || (a.ntp_secs == b.ntp_secs && a.ntp_frac > b.ntp_frac)

/-- Modelled from the spec: `UpdateRtcpList` (the Clock Correlation Store
update of spec sections 3 and 4.1) is implemented in stream_synchronization.cc,
which is not part of the excerpt.  Per the spec the history is capacity-bounded
with the oldest sample dropped on overflow (two samples suffice for the linear
mapping, so capacity 2), a sample whose wall-clock time is not strictly greater
than the newest accepted sample is rejected without error, and an absent
sender report (all-zero NTP time, the transport has not yet observed one) is a
failure.  Returns `none` on failure, otherwise the new list paired with
whether the sample was newly accepted. -/
def UpdateRtcpList (ntp_secs ntp_frac rtp_timestamp : Nat)
    (rtcp : List RtcpMeasurement) : Option (List RtcpMeasurement × Bool) :=
  if ntp_secs == 0 && ntp_frac == 0 then
    none
  else
    let m : RtcpMeasurement := ⟨ntp_secs, ntp_frac, rtp_timestamp⟩
    match rtcp with
    | [] => some ([m], true)
    | newest :: _ =>
      if ntpGt m newest then some ((m :: rtcp).take 2, true)
      else some (rtcp, false)

/-- The free function `UpdateMeasurements` (vie_sync_module.cc lines 24-49):
queries the receiver's latest timestamp and latest receive time, then the
transport's remote NTP sender report, and feeds the sample to the stream's
RTCP list.  Returns 0 on success and -1 on failure, together with the
measurement record as left by the call (the C++ mutates it in place through a
pointer, so fields written before a failing stage stay written). -/
def UpdateMeasurements (stream : Measurements) (rtp_rtcp : RtpRtcpData)
    (receiver : RtpReceiverData) : Int × Measurements :=
  match receiver.timestamp with
  | none => (-1, stream)
  | some ts =>
    let stream1 := { stream with latest_timestamp := ts }
    match receiver.last_received_time_ms with
    | none => (-1, stream1)
    | some rt =>
      let stream2 := { stream1 with latest_receive_time_ms := rt }
      match rtp_rtcp.remote_ntp with
      | none => (-1, stream2)
      | some (secs, frac, rtpTs) =>
        match UpdateRtcpList secs frac rtpTs stream2.rtcp with
        | none => (-1, stream2)
        | some (l, _) => (0, { stream2 with rtcp := l })

/-- Modelled from the spec: the `StreamSynchronization` object constructed by
`ConfigureSync` (stream_synchronization.cc is not part of the excerpt).  Only
its constructor arguments are visible at the call site: the video SSRC read
from the video RTCP module and the audio channel id.  A freshly constructed
instance carries exactly these and no accumulated state. -/
structure StreamSyncInst where
  video_ssrc : Nat
  audio_channel : Int
deriving DecidableEq, Repr

/-- The lock-guarded mutable state of `ViESyncModule`: configuration pointers
(by identity), the optional `StreamSynchronization` instance, the two
persistent per-stream measurement records and the last sync tick. -/
structure SyncState where
  voe_channel_id : Int
  voe_sync_interface : Option Nat
  video_receiver : Option Nat
  video_rtp_rtcp : Option Nat
  sync : Option StreamSyncInst
  audio_measurement : Measurements
  video_measurement : Measurements
  last_sync_time : Int
deriving DecidableEq, Repr

/-- `ViESyncModule::ConfigureSync` (lines 64-84).  Identical arguments hit the
early "prevent expensive no-ops" return; differing arguments store the new
configuration and reset `sync_` to a fresh `StreamSynchronization` built from
`video_rtp_rtcp_->SSRC()` — a dereference of the supplied module, so a NULL
module on that path is undefined behaviour, modelled as `none`.  `ssrcOf`
gives the SSRC stored behind each module pointer. -/
def ConfigureSync (st : SyncState) (voe_channel_id : Int)
    (voe_sync_interface video_rtcp_module video_receiver : Option Nat)
    (ssrcOf : Nat → Nat) : Option SyncState :=
  if st.voe_channel_id = voe_channel_id ∧
     st.voe_sync_interface = voe_sync_interface ∧
     st.video_receiver = video_receiver ∧
     st.video_rtp_rtcp = video_rtcp_module then
    some st
  else
    match video_rtcp_module with
    | none => none
    | some m =>
      some { st with
        voe_channel_id := voe_channel_id
        voe_sync_interface := voe_sync_interface
        video_receiver := video_receiver
        video_rtp_rtcp := some m
        sync := some ⟨ssrcOf m, voe_channel_id⟩ }

/-- `ViESyncModule::TimeUntilNextProcess` (lines 86-89): the 1000 ms sync
interval minus the milliseconds elapsed since `last_sync_time_`. -/
def TimeUntilNextProcess (now last_sync_time : Int) : Int :=
  1000 - (now - last_sync_time)

/-- NTP time flattened to milliseconds (seconds plus the 2^32-scaled
fraction), used by the spec-modelled wall-clock mapping. -/
def ntpToMs (secs frac : Nat) : Int :=
  (secs : Int) * 1000 + ((frac : Int) * 1000) / 4294967296

/-- Modelled from the spec: the Clock Correlation Store query
`MapToWallClock` (spec 4.1), implemented in stream_synchronization.cc outside
the excerpt.  Uses the two most recent samples to derive a linear rate and
extrapolates the queried timestamp; fails when fewer than 2 samples exist (or
the rate is degenerate). -/
def MapToWallClock (rtcp : List RtcpMeasurement) (ts : Nat) : Option Int :=
  match rtcp with
  | s2 :: s1 :: _ =>
    let w1 := ntpToMs s1.ntp_secs s1.ntp_frac
    let w2 := ntpToMs s2.ntp_secs s2.ntp_frac
    if s2.rtp_timestamp = s1.rtp_timestamp then none
    else
      some (w2 + ((ts : Int) - (s2.rtp_timestamp : Int)) * (w2 - w1) /
        ((s2.rtp_timestamp : Int) - (s1.rtp_timestamp : Int)))
  | _ => none

/-- Modelled from the spec: `StreamSynchronization::ComputeRelativeDelay`
(Relative Delay Estimator, spec 4.3), outside the excerpt.  Maps each
stream's latest timestamp to an estimated wall-clock send time through its
correlation store, takes each stream's receive-side delay as receive time
minus send time, and returns audio delay minus video delay; fails when either
store cannot answer. -/
def ComputeRelativeDelay (audio video : Measurements) : Option Int :=
  match MapToWallClock audio.rtcp audio.latest_timestamp,
        MapToWallClock video.rtcp video.latest_timestamp with
  | some asend, some vsend =>
    some ((audio.latest_receive_time_ms - asend) -
          (video.latest_receive_time_ms - vsend))
  | _, _ => none

/-- Maximum per-cycle delay change (ms), spec 4.4 / the spec 8 scenario. -/
def kMaxStepMs : Int := 30

/-- Maximum total requested delay (ms), spec 4.4 / the spec 8 scenario. -/
def kMaxDelayMs : Int := 400

/-- Hysteresis half-band (ms) around zero relative delay, spec 4.4. -/
def kHysteresisMs : Nat := 10

/-- Modelled from the spec: `StreamSynchronization::ComputeDelays` (Delay
Distributor, spec 4.4), outside the excerpt.  A relative delay inside the
hysteresis band returns the current delays unchanged; otherwise the stream
that must gain delay is moved toward the measured skew by at most
`kMaxStepMs` per call and clamped to `kMaxDelayMs` (never below its current
value, so the video floor of spec 8 holds); positive relative delay raises
the audio delay, matching the spec 8 scenario (100, 20, 40) giving (50, 40). -/
def ComputeDelays (relative_delay_ms current_audio_delay_ms
    current_video_delay_ms : Int) : Option (Int × Int) :=
  if relative_delay_ms.natAbs ≤ kHysteresisMs then
    some (current_audio_delay_ms, current_video_delay_ms)
  else if relative_delay_ms > 0 then
    some (min (min (current_audio_delay_ms + relative_delay_ms)
                   (current_audio_delay_ms + kMaxStepMs))
              (max kMaxDelayMs current_audio_delay_ms),
          current_video_delay_ms)
  else
    some (current_audio_delay_ms,
          min (min (current_video_delay_ms - relative_delay_ms)
                   (current_video_delay_ms + kMaxStepMs))
              (max kMaxDelayMs current_video_delay_ms))

/-- The collaborator responses visible to one `Process` call: the tick clock,
`vcm_->Delay()`, `GetDelayEstimate`, `GetRtpRtcp` (the voice handles' data),
the data behind the stored video RTCP module and receiver pointers, and
whether `SetMinimumPlayoutDelay` on the voice side would succeed. -/
structure ProcessEnv where
  now : Int
  vcm_delay : Int
  delay_estimate : Option (Int × Int)
  rtp_handles : Option (RtpRtcpData × RtpReceiverData)
  video_rtp_rtcp : RtpRtcpData
  video_receiver : RtpReceiverData
  audio_set_ok : Bool
deriving DecidableEq, Repr

/-- The collaborator setter calls one `Process` call performs:
`SetMinimumPlayoutDelay` on the voice interface, `SetMinimumPlayoutDelay` on
the video coding module, and whether the voice-setter error was logged. -/
structure Calls where
  set_audio : Option Int
  set_video : Option Int
  audio_error_logged : Bool
deriving DecidableEq, Repr

/-- A cycle that performs no collaborator setter call. -/
def noCalls : Calls := ⟨none, none, false⟩

/-- `ViESyncModule::Process` (lines 91-158): one synchronization cycle.
Stamps `last_sync_time_`, reads the current video delay, returns early when
disabled or when any stage fails (delay estimate, voice RTP handles, either
measurement update — committed in place even on failure — or the relative
delay), then computes target delays and calls both setters; a failing voice
setter is only logged. -/
def Process (st : SyncState) (env : ProcessEnv) : SyncState × Calls :=
  let st := { st with last_sync_time := env.now }
  let current_video_delay_ms := env.vcm_delay
  if st.voe_channel_id = -1 then (st, noCalls)
  else
    match env.delay_estimate with
    | none => (st, noCalls)
    | some (audio_jitter_buffer_delay_ms, playout_buffer_delay_ms) =>
      let current_audio_delay_ms :=
        audio_jitter_buffer_delay_ms + playout_buffer_delay_ms
      match env.rtp_handles with
      | none => (st, noCalls)
      | some (voice_rtp_rtcp, voice_receiver) =>
        let pv := UpdateMeasurements st.video_measurement env.video_rtp_rtcp
          env.video_receiver
        let st := { st with video_measurement := pv.2 }
        if pv.1 ≠ 0 then (st, noCalls)
        else
          let pa := UpdateMeasurements st.audio_measurement voice_rtp_rtcp
            voice_receiver
          let st := { st with audio_measurement := pa.2 }
          if pa.1 ≠ 0 then (st, noCalls)
          else
            match ComputeRelativeDelay st.audio_measurement
              st.video_measurement with
            | none => (st, noCalls)
            | some relative_delay_ms =>
              match ComputeDelays relative_delay_ms current_audio_delay_ms
                current_video_delay_ms with
              | none => (st, noCalls)
              | some (target_audio_delay_ms, target_video_delay_ms) =>
                (st, ⟨some target_audio_delay_ms, some target_video_delay_ms,
                      !env.audio_set_ok⟩)

/-- The sequence of setter-call records produced by running `Process` once
per environment in the list, threading the state. -/
def ProcessTrace (st : SyncState) : List ProcessEnv → List Calls
  | [] => []
  | env :: rest =>
    (Process st env).2 :: ProcessTrace (Process st env).1 rest

/-- An empty per-stream measurement record, used by concrete instances. -/
def measZero : Measurements := ⟨0, 0, []⟩

/-- A receiver that has both a timestamp and a receive time. -/
def recvFull : RtpReceiverData := ⟨some 5, some 7⟩

/-- A transport that has not yet observed a remote sender report. -/
def rtcpAbsent : RtpRtcpData := ⟨none⟩

/-- A concrete configured (Active) controller state, channel 3. -/
def stAct : SyncState :=
  { voe_channel_id := 3
    voe_sync_interface := some 1
    video_receiver := some 2
    video_rtp_rtcp := some 4
    sync := some ⟨7, 3⟩
    audio_measurement := measZero
    video_measurement := measZero
    last_sync_time := 0 }

/-- The state `stAct` moves to when reconfigured with the disabled sentinel
and a fresh set of pointers (module 4, SSRC read 5 under `Nat.succ`). -/
def stDis : SyncState :=
  { voe_channel_id := -1
    voe_sync_interface := some 1
    video_receiver := some 2
    video_rtp_rtcp := some 4
    sync := some ⟨5, -1⟩
    audio_measurement := measZero
    video_measurement := measZero
    last_sync_time := 0 }

-- ### Theorems

/-- C6 counterexample: with 2000 ms elapsed since the last sync, the
scheduler hint is negative, refuting the claim that `TimeUntilNextProcess`
is non-negative for every current time and last-sync timestamp. -/
theorem timeUntilNextProcess_negative_cex :
    TimeUntilNextProcess 2000 0 < 0 := by decide

/-- C6 amended: `TimeUntilNextProcess` returns the 1000 ms interval minus the
elapsed time since the last sync, hence it is non-negative exactly when at
most 1000 ms have elapsed; a longer gap yields a negative hint. -/
theorem timeUntilNextProcess_bound (now last : Int) (h : now - last ≤ 1000) :
    TimeUntilNextProcess now last = 1000 - (now - last) ∧
    0 ≤ TimeUntilNextProcess now last := by
  unfold TimeUntilNextProcess
  omega

/-- Witness for the amended C6 at a concrete instant. -/
theorem timeUntilNextProcess_bound_witness :
    TimeUntilNextProcess 500 0 = 1000 - (500 - 0) ∧
    0 ≤ TimeUntilNextProcess 500 0 :=
  timeUntilNextProcess_bound 500 0 (by decide)

/-- C8: a relative delay within the hysteresis band returns the current
audio and video delays unchanged. -/
theorem computeDelays_hysteresis (rel ca cv : Int)
    (h : rel.natAbs ≤ kHysteresisMs) :
    ComputeDelays rel ca cv = some (ca, cv) := by
  unfold ComputeDelays
  rw [if_pos h]

/-- Witness for C8 at a concrete in-band relative delay. -/
theorem computeDelays_hysteresis_witness :
    ComputeDelays 5 100 200 = some (100, 200) :=
  computeDelays_hysteresis 5 100 200 (by decide)

/-- C7: whatever `ComputeDelays` returns respects the video floor (the
target video delay never drops below the current video delay) and the
per-cycle step bound on both streams. -/
theorem computeDelays_floor_and_step (rel ca cv ta tv : Int)
    (h : ComputeDelays rel ca cv = some (ta, tv)) :
    cv ≤ tv ∧ |ta - ca| ≤ kMaxStepMs ∧ |tv - cv| ≤ kMaxStepMs := by
  have hs : kMaxStepMs = 30 := rfl
  have hd : kMaxDelayMs = 400 := rfl
  have hh : kHysteresisMs = 10 := rfl
  refine ⟨?_, abs_le.mpr ⟨?_, ?_⟩, abs_le.mpr ⟨?_, ?_⟩⟩ <;>
  · unfold ComputeDelays at h
    split at h
    next hband =>
      rw [Option.some.injEq, Prod.mk.injEq] at h
      omega
    next hband =>
      split at h <;>
      · next hpos =>
          rw [Option.some.injEq, Prod.mk.injEq] at h
          omega

/-- Witness for C7 on the spec's worked scenario (100, 20, 40) ⇒ (50, 40). -/
theorem computeDelays_floor_and_step_witness :
    (40 : Int) ≤ 40 ∧ |(50 : Int) - 20| ≤ kMaxStepMs ∧
    |(40 : Int) - 40| ≤ kMaxStepMs :=
  computeDelays_floor_and_step 100 20 40 50 40 (by decide)

/-- C2: a second `ConfigureSync` with exactly the arguments already in
effect hits the no-op guard and changes nothing: the state (and with it the
measurement records, their RTCP correlation lists and the
`StreamSynchronization` instance) is returned untouched. -/
theorem configureSync_idempotent (st st' : SyncState) (c : Int)
    (i m r : Option Nat) (f f2 : Nat → Nat)
    (h : ConfigureSync st c i m r f = some st') :
    ConfigureSync st' c i m r f2 = some st' := by
  unfold ConfigureSync at h ⊢
  split at h
  next hc =>
    rw [Option.some.injEq] at h
    subst h
    rw [if_pos hc]
  next hc =>
    cases m with
    | none => exact absurd h (by simp)
    | some mv =>
      rw [Option.some.injEq] at h
      subst h
      rw [if_pos ⟨rfl, rfl, rfl, rfl⟩]

/-- Witness for C2: reconfiguring `stAct` to the same concrete arguments
twice returns the intermediate state unchanged. -/
theorem configureSync_idempotent_witness :
    ConfigureSync stDis (-1) (some 1) (some 4) (some 2) Nat.succ =
      some stDis :=
  configureSync_idempotent stAct stDis (-1) (some 1) (some 4) (some 2)
    Nat.succ Nat.succ (by decide)

/-- C10: a `ConfigureSync` whose arguments differ from the stored
configuration dereferences the supplied video RTCP module to read its SSRC —
a NULL module makes the call undefined (`none`) — and otherwise installs the
new configuration with a freshly constructed `StreamSynchronization`
instance, discarding the previous one. -/
theorem configureSync_reset_on_change (st : SyncState) (c : Int)
    (i m r : Option Nat) (f : Nat → Nat)
    (hdiff : ¬(st.voe_channel_id = c ∧ st.voe_sync_interface = i ∧
               st.video_receiver = r ∧ st.video_rtp_rtcp = m)) :
    ConfigureSync st c i m r f =
      match m with
      | none => none
      | some mv =>
        some { st with
          voe_channel_id := c
          voe_sync_interface := i
          video_receiver := r
          video_rtp_rtcp := some mv
          sync := some ⟨f mv, c⟩ } := by
  unfold ConfigureSync
  rw [if_neg hdiff]
  cases m <;> rfl

/-- Witness for C10 at a concrete differing configuration (module 9). -/
theorem configureSync_reset_on_change_witness :
    ConfigureSync stAct 8 (some 1) (some 9) (some 2) Nat.succ =
      match (some 9 : Option Nat) with
      | none => none
      | some mv =>
        some { stAct with
          voe_channel_id := 8
          voe_sync_interface := some 1
          video_receiver := some 2
          video_rtp_rtcp := some mv
          sync := some ⟨Nat.succ mv, 8⟩ } :=
  configureSync_reset_on_change stAct 8 (some 1) (some 9) (some 2) Nat.succ
    (by decide)

/-- C4 counterexample: a receiver that already has a timestamp and a receive
time but a transport with no remote sender report yet makes
`UpdateMeasurements` fail — and the failing call has already overwritten the
measurement's latest-timestamp field, so a partial mutation is visible. -/
theorem updateMeasurements_partial_mutation_cex :
    (UpdateMeasurements measZero rtcpAbsent recvFull).1 = -1 ∧
    (UpdateMeasurements measZero rtcpAbsent recvFull).2.latest_timestamp ≠
      measZero.latest_timestamp ∧
    (UpdateMeasurements measZero rtcpAbsent recvFull).2.latest_receive_time_ms ≠
      measZero.latest_receive_time_ms := by decide

/-- C4 amended: when `UpdateMeasurements` fails, the stream's RTCP
correlation history is left unchanged; the latest-timestamp and
latest-receive-time fields queried successfully before the failing stage may
already have been overwritten. -/
theorem updateMeasurements_fail_preserves_rtcp (s : Measurements)
    (r : RtpRtcpData) (v : RtpReceiverData)
    (h : (UpdateMeasurements s r v).1 ≠ 0) :
    (UpdateMeasurements s r v).2.rtcp = s.rtcp := by
  cases hts : v.timestamp with
  | none => simp [UpdateMeasurements, hts]
  | some ts =>
    cases hrt : v.last_received_time_ms with
    | none => simp [UpdateMeasurements, hts, hrt]
    | some rt =>
      cases hntp : r.remote_ntp with
      | none => simp [UpdateMeasurements, hts, hrt, hntp]
      | some trip =>
        obtain ⟨secs, frac, rtpTs⟩ := trip
        cases hl : UpdateRtcpList secs frac rtpTs s.rtcp with
        | none => simp [UpdateMeasurements, hts, hrt, hntp, hl]
        | some p =>
          exact absurd (by simp [UpdateMeasurements, hts, hrt, hntp, hl]) h

/-- Witness for the amended C4 at the concrete failing input. -/
theorem updateMeasurements_fail_preserves_rtcp_witness :
    (UpdateMeasurements measZero rtcpAbsent recvFull).2.rtcp =
      measZero.rtcp :=
  updateMeasurements_fail_preserves_rtcp measZero rtcpAbsent recvFull
    (by decide)

/-- One disabled `Process` call: it only stamps the sync time and performs
no collaborator setter call. -/
theorem process_disabled (st : SyncState) (env : ProcessEnv)
    (h : st.voe_channel_id = -1) :
    Process st env = ({ st with last_sync_time := env.now }, noCalls) := by
  unfold Process
  simp [h]

/-- `Process` never changes the configured channel id. -/
theorem process_preserves_channel (st : SyncState) (env : ProcessEnv) :
    (Process st env).1.voe_channel_id = st.voe_channel_id := by
  unfold Process
  dsimp only
  repeat' split
  all_goals rfl

/-- A disabled controller stays silent over any sequence of cycles. -/
theorem process_disabled_trace (s : SyncState) (envs : List ProcessEnv)
    (h : s.voe_channel_id = -1) :
    ∀ cl ∈ ProcessTrace s envs, cl = noCalls := by
  induction envs generalizing s with
  | nil => simp [ProcessTrace]
  | cons e rest ih =>
    intro cl hcl
    rw [ProcessTrace] at hcl
    rcases List.mem_cons.mp hcl with h1 | h2
    · rw [h1, process_disabled s e h]
    · exact ih (Process s e).1 (by rw [process_disabled s e h]; exact h) cl h2

/-- C1: a `ConfigureSync` that returns places the controller in a state whose
channel id equals the requested one; with the disabled sentinel -1 the
controller is Disabled and every subsequent `Process` cycle — over any
sequence of collaborator environments — performs zero collaborator setter
calls, while a valid (non -1) channel id makes it Active. -/
theorem configureSync_disabled_silences (st st' : SyncState) (c : Int)
    (i m r : Option Nat) (f : Nat → Nat)
    (h : ConfigureSync st c i m r f = some st') :
    (c = -1 → st'.voe_channel_id = -1 ∧
      ∀ envs, ∀ cl ∈ ProcessTrace st' envs, cl = noCalls) ∧
    (c ≠ -1 → st'.voe_channel_id = c) := by
  have hch : st'.voe_channel_id = c := by
    unfold ConfigureSync at h
    split at h
    next hc =>
      rw [Option.some.injEq] at h
      subst h
      exact hc.1
    next hc =>
      cases m with
      | none => exact absurd h (by simp)
      | some mv =>
        rw [Option.some.injEq] at h
        subst h
        rfl
  refine ⟨fun hm => ⟨hch.trans hm, fun envs => ?_⟩, fun _ => hch⟩
  exact process_disabled_trace st' envs (hch.trans hm)

/-- Witness for C1: disabling `stAct` concretely and observing a silent
two-cycle trace. -/
theorem configureSync_disabled_silences_witness :
    (((-1 : Int) = -1 → stDis.voe_channel_id = -1 ∧
       ∀ envs, ∀ cl ∈ ProcessTrace stDis envs, cl = noCalls) ∧
     ((-1 : Int) ≠ -1 → stDis.voe_channel_id = -1)) :=
  configureSync_disabled_silences stAct stDis (-1) (some 1) (some 4) (some 2)
    Nat.succ (by decide)

/-- C3: in Active state, a failure of any stage — the audio delay-estimate
query, the audio RTP/RTCP handle query, either stream's measurement update,
or the relative-delay computation — skips the cycle: no collaborator setter
is invoked and the controller stays on its channel, ready for the next
cycle. -/
theorem process_stage_failure_skips (st : SyncState) (env : ProcessEnv)
    (hact : st.voe_channel_id ≠ -1)
    (h : env.delay_estimate = none ∨ env.rtp_handles = none ∨
      (UpdateMeasurements st.video_measurement env.video_rtp_rtcp
        env.video_receiver).1 ≠ 0 ∨
      (∃ vr vv, env.rtp_handles = some (vr, vv) ∧
        (UpdateMeasurements st.audio_measurement vr vv).1 ≠ 0) ∨
      (∃ vr vv, env.rtp_handles = some (vr, vv) ∧
        ComputeRelativeDelay (UpdateMeasurements st.audio_measurement vr vv).2
          (UpdateMeasurements st.video_measurement env.video_rtp_rtcp
            env.video_receiver).2 = none)) :
    (Process st env).2 = noCalls ∧
    (Process st env).1.voe_channel_id = st.voe_channel_id := by
  refine ⟨?_, process_preserves_channel st env⟩
  rcases h with h | h | h | ⟨vr, vv, hh, h⟩ | ⟨vr, vv, hh, h⟩
  · simp [Process, h, hact]
  · cases hde : env.delay_estimate with
    | none => simp [Process, hde, hact]
    | some jp =>
      obtain ⟨j, p⟩ := jp
      simp [Process, hde, h, hact]
  · cases hde : env.delay_estimate with
    | none => simp [Process, hde, hact]
    | some jp =>
      obtain ⟨j, p⟩ := jp
      cases hhh : env.rtp_handles with
      | none => simp [Process, hde, hhh, hact]
      | some pr =>
        obtain ⟨pvr, pvv⟩ := pr
        simp [Process, hde, hhh, hact, h]
  · cases hde : env.delay_estimate with
    | none => simp [Process, hde, hact]
    | some jp =>
      obtain ⟨j, p⟩ := jp
      by_cases hv : (UpdateMeasurements st.video_measurement
          env.video_rtp_rtcp env.video_receiver).1 = 0
      · simp [Process, hde, hh, hact, hv, h]
      · simp [Process, hde, hh, hact, hv]
  · cases hde : env.delay_estimate with
    | none => simp [Process, hde, hact]
    | some jp =>
      obtain ⟨j, p⟩ := jp
      by_cases hv : (UpdateMeasurements st.video_measurement
          env.video_rtp_rtcp env.video_receiver).1 = 0
      · by_cases ha : (UpdateMeasurements st.audio_measurement vr vv).1 = 0
        · simp [Process, hde, hh, hact, hv, ha, h]
        · simp [Process, hde, hh, hact, hv, ha]
      · simp [Process, hde, hh, hact, hv]

/-- A `Process` environment in which the very first stage (the audio
delay-estimate query) fails. -/
def envFail : ProcessEnv :=
  { now := 5
    vcm_delay := 40
    delay_estimate := none
    rtp_handles := none
    video_rtp_rtcp := rtcpAbsent
    video_receiver := ⟨none, none⟩
    audio_set_ok := true }

/-- Witness for C3: a concrete Active state whose cycle fails at the
delay-estimate stage performs no setter call and keeps its channel. -/
theorem process_stage_failure_skips_witness :
    (Process stAct envFail).2 = noCalls ∧
    (Process stAct envFail).1.voe_channel_id = stAct.voe_channel_id :=
  process_stage_failure_skips stAct envFail (by decide) (Or.inl rfl)

/-- `Process` ignores the voice setter's success flag for both its resulting
state and the delays it requests. -/
theorem process_audio_ok_independent (st : SyncState) (env : ProcessEnv)
    (b : Bool) :
    (Process st { env with audio_set_ok := b }).1 = (Process st env).1 ∧
    (Process st { env with audio_set_ok := b }).2.set_audio =
      (Process st env).2.set_audio ∧
    (Process st { env with audio_set_ok := b }).2.set_video =
      (Process st env).2.set_video := by
  obtain ⟨now, vcm, de, rh, vrt, vrc, ok⟩ := env
  unfold Process
  dsimp only
  repeat' split
  all_goals exact ⟨rfl, rfl, rfl⟩

/-- A `Process` cycle either performs no setter call at all, or performs
both setter calls and logs exactly when the voice setter failed. -/
theorem process_calls_shape (st : SyncState) (env : ProcessEnv) :
    (Process st env).2 = noCalls ∨
    ∃ ta tv, (Process st env).2 = ⟨some ta, some tv, !env.audio_set_ok⟩ := by
  unfold Process
  dsimp only
  repeat' split
  all_goals first
    | exact Or.inl rfl
    | exact Or.inr ⟨_, _, rfl⟩

/-- C5: whenever a cycle attempts to set the audio delay (i.e. `ComputeDelays`
succeeded), the video delay setter is called unconditionally; the voice
setter's failure is only logged and affects neither the resulting state nor
the video setter call. -/
theorem process_video_set_unconditional (st : SyncState) (env : ProcessEnv)
    (ta : Int) (h : (Process st env).2.set_audio = some ta) :
    (Process st env).2.set_video.isSome = true ∧
    (∀ b, (Process st { env with audio_set_ok := b }).1 =
        (Process st env).1 ∧
      (Process st { env with audio_set_ok := b }).2.set_video =
        (Process st env).2.set_video) ∧
    (Process st env).2.audio_error_logged = !env.audio_set_ok := by
  rcases process_calls_shape st env with hsh | ⟨ta', tv, hsh⟩
  · rw [hsh] at h
    exact absurd h (by simp [noCalls])
  · refine ⟨by rw [hsh]; rfl, ?_, by rw [hsh]⟩
    intro b
    exact ⟨(process_audio_ok_independent st env b).1,
           (process_audio_ok_independent st env b).2.2⟩

/-- An audio measurement record that already holds one correlation sample. -/
def measA0 : Measurements := ⟨0, 0, [⟨10, 0, 1000⟩]⟩

/-- A video measurement record that already holds one correlation sample. -/
def measV0 : Measurements := ⟨0, 0, [⟨10, 0, 2000⟩]⟩

/-- An Active controller state mid-session: one correlation sample per
stream, so the next successful cycle can compute a relative delay. -/
def stRun : SyncState :=
  { voe_channel_id := 3
    voe_sync_interface := some 1
    video_receiver := some 2
    video_rtp_rtcp := some 4
    sync := some ⟨7, 3⟩
    audio_measurement := measA0
    video_measurement := measV0
    last_sync_time := 0 }

/-- Collaborator responses for a fully successful cycle: delay estimate
(20, 30), fresh sender reports on both streams, and a voice delay setter
that fails (so the cycle must log and still set the video delay). -/
def envRun : ProcessEnv :=
  { now := 5
    vcm_delay := 40
    delay_estimate := some (20, 30)
    rtp_handles := some (⟨some (11, 0, 1900)⟩, ⟨some 1950, some 500⟩)
    video_rtp_rtcp := ⟨some (11, 0, 2900)⟩
    video_receiver := ⟨some 2950, some 480⟩
    audio_set_ok := false }

/-- Witness for C5 on the concrete successful cycle (audio target 70 ms). -/
theorem process_video_set_unconditional_witness :
    (Process stRun envRun).2.set_video.isSome = true ∧
    (∀ b, (Process stRun { envRun with audio_set_ok := b }).1 =
        (Process stRun envRun).1 ∧
      (Process stRun { envRun with audio_set_ok := b }).2.set_video =
        (Process stRun envRun).2.set_video) ∧
    (Process stRun envRun).2.audio_error_logged = !envRun.audio_set_ok :=
  process_video_set_unconditional stRun envRun 70 (by decide)

/-- C9: the audio delay a successful cycle feeds into `ComputeDelays` is the
sum of the two components of the audio endpoint's delay estimate (jitter
buffer plus playout buffer): the targets applied by the setters are exactly
those computed from that sum. -/
theorem process_audio_delay_component_sum (st : SyncState) (env : ProcessEnv)
    (j p rel ta tv : Int) (vr : RtpRtcpData) (vv : RtpReceiverData)
    (hact : st.voe_channel_id ≠ -1)
    (hde : env.delay_estimate = some (j, p))
    (hh : env.rtp_handles = some (vr, vv))
    (hv : (UpdateMeasurements st.video_measurement env.video_rtp_rtcp
      env.video_receiver).1 = 0)
    (ha : (UpdateMeasurements st.audio_measurement vr vv).1 = 0)
    (hr : ComputeRelativeDelay
      (UpdateMeasurements st.audio_measurement vr vv).2
      (UpdateMeasurements st.video_measurement env.video_rtp_rtcp
        env.video_receiver).2 = some rel)
    (hcd : ComputeDelays rel (j + p) env.vcm_delay = some (ta, tv)) :
    (Process st env).2.set_audio = some ta ∧
    (Process st env).2.set_video = some tv := by
  simp [Process, hact, hde, hh, hv, ha, hr, hcd]

/-- Witness for C9 on the concrete successful cycle: 20 + 30 = 50 ms of
current audio delay yields targets (70, 40). -/
theorem process_audio_delay_component_sum_witness :
    (Process stRun envRun).2.set_audio = some 70 ∧
    (Process stRun envRun).2.set_video = some 40 :=
  process_audio_delay_component_sum stRun envRun 20 30 20 70 40
    ⟨some (11, 0, 1900)⟩ ⟨some 1950, some 500⟩
    (by decide) (by decide) (by decide) (by decide) (by decide) (by decide)
    (by decide)

end ViESync
